import Mathlib

/-!
BoostedVTreeWriter (MitMonoJet/Mods/src/BoostedVTreeWriter.cc)

A shallow embedding of the per-event code of `BoostedVTreeWriter`:
`Process`, `ProcessMc`, `GetTau`, `GetJetTriggerObjs` and `MinTriggerDeltaR`.

Conventions of the embedding.
* `Double_t` / `float` values are rationals; the only operations the module
  itself applies to them are the comparisons `dRTest < dR` and `pt() < 100`.
* Collections (`fJets`, `fTrigObjs`, `fMcParts`, the candidates of a jet) are
  lists; `GetEntries()` / `size()` is the length and `At(i)` the `i`-th entry.
* A pointer that may be null (`GetHLTObjects`) is an `Option`.
* The module object is a record `BoostedVTreeWriter`; a method is a function
  from the record to the record. `tree_->Fill()` appends the current branch
  variables to `tree_`; `TH1D::Fill` appends the value to the histogram's
  list; `printf` appends to `stdout`.
* What lives outside the module (fastjet, ROOT, MathUtils, MitGPTree's
  `InitVariables`) is gathered in the record `External` and passed in.
-/

namespace BoostedV

/-! ## Data model -/

/-- The type `LorentzVector`, as the module uses it: set through `SetPxPyPzE`. -/
structure LorentzVector where
  px : ℚ
  py : ℚ
  pz : ℚ
  e : ℚ
deriving DecidableEq, Repr

/-- The type `fastjet::PseudoJet`: four-momentum and user index (`-1` until set). -/
structure PseudoJet where
  px : ℚ
  py : ℚ
  pz : ℚ
  E : ℚ
  user_index : Int := -1
deriving DecidableEq, Repr

/-- The type `TriggerObject`: the trigger name and the direction of the object. -/
structure TriggerObject where
  TrigName : String
  eta : ℚ
  phi : ℚ
deriving DecidableEq, Repr

/-- The type `PFCandidate`, with the accessors the module reads. -/
structure PFCandidate where
  Px : ℚ
  Py : ℚ
  Pz : ℚ
  E : ℚ
  Pt : ℚ
  Eta : ℚ
  Phi : ℚ
deriving DecidableEq, Repr

/-- The type `PFJet`: `NPFCands()` is `cands.length`, `PFCand(j)` is `cands[j]`. -/
structure PFJet where
  cands : List PFCandidate
deriving DecidableEq, Repr

/-- An entry of the jet collection `fJets`; `dynamic_cast<const PFJet*>` succeeds
on `pfJet` and gives a null pointer on `other`. -/
inductive Jet where
  | pfJet (jet : PFJet)
  | other
deriving DecidableEq, Repr

/-- The type `MCParticle`, with the accessors the module reads. -/
structure MCParticle where
  Status : Int
  Px : ℚ
  Py : ℚ
  Pz : ℚ
  E : ℚ
deriving DecidableEq, Repr

/-- The branch variables of `MitGPTree` that the module writes. -/
structure MitGPTree where
  trigger_ : Nat
  eta_ : ℚ
  phi_ : ℚ
  pt_ : ℚ
  nParts_ : Nat
  numJets_ : Nat
  jet1_ : LorentzVector
  jet1Pt_ : ℚ
  jet1Eta_ : ℚ
  jet1Phi_ : ℚ
  jet1M_ : ℚ
  jet1Tau1_ : ℚ
  jet1Tau2_ : ℚ
  jet1Tau3_ : ℚ
  jet1MinTrigDr_ : ℚ
  jet2_ : LorentzVector
  jet2Pt_ : ℚ
  jet2Eta_ : ℚ
  jet2Phi_ : ℚ
  jet2M_ : ℚ
  jet2Tau1_ : ℚ
  jet2Tau2_ : ℚ
  jet2Tau3_ : ℚ
  jet2MinTrigDr_ : ℚ
  nGenParts_ : Int
  numGenJets_ : Nat
  genJet1_ : LorentzVector
  genJet1Pt_ : ℚ
  genJet1Eta_ : ℚ
  genJet1Phi_ : ℚ
  genJet1M_ : ℚ
  genJet1Tau1_ : ℚ
  genJet1Tau2_ : ℚ
  genJet1Tau3_ : ℚ
  genJet1MinTrigDr_ : ℚ
  genJet2_ : LorentzVector
  genJet2Pt_ : ℚ
  genJet2Eta_ : ℚ
  genJet2Phi_ : ℚ
  genJet2M_ : ℚ
  genJet2Tau1_ : ℚ
  genJet2Tau2_ : ℚ
  genJet2Tau3_ : ℚ
  genJet2MinTrigDr_ : ℚ

/-- What the module calls but does not define: fastjet (clustering, pruner,
kinematic accessors, N-subjettiness), `MathUtils::DeltaR` and
`MitGPTree::InitVariables`. -/
structure External where
  /-- `ClusterSequenceArea(parts,*fCAJetDef,*fAreaDefinition).inclusive_jets(0.0)`. -/
  inclusive_jets : List PseudoJet → List PseudoJet
  /-- `(*fPruner)(jet)`. -/
  fPruner : PseudoJet → PseudoJet
  /-- `PseudoJet::pt()`. -/
  pt : PseudoJet → ℚ
  /-- `PseudoJet::eta()`. -/
  eta : PseudoJet → ℚ
  /-- `PseudoJet::phi()`. -/
  phi : PseudoJet → ℚ
  /-- `PseudoJet::m()`. -/
  m : PseudoJet → ℚ
  /-- `Nsubjettiness(iN,onepass_kt_axes,iKappa,R0,Rcut)(jet)`, arguments in that order. -/
  Nsubjettiness : Int → ℚ → ℚ → ℚ → PseudoJet → ℚ
  /-- The conversion of a `double` to `float` (rounding to single precision). -/
  toFloat : ℚ → ℚ
  /-- `MathUtils::DeltaR(jet,triggerObject)`. -/
  DeltaR : LorentzVector → TriggerObject → ℚ
  /-- `MitGPTree::InitVariables()`. -/
  InitVariables : MitGPTree → MitGPTree

/-- The inputs of one event. `GetHLTObjects(fTriggerObjsName)` is called twice
during `Process` (once in `GetJetTriggerObjs`, once in the jet loop);
`hltFirst` and `hltSecond` are what the two calls return. -/
structure Event where
  fJets : List Jet
  fPFCandidates : List PFCandidate
  fMcParts : List MCParticle
  hltFirst : Option (List TriggerObject)
  hltSecond : Option (List TriggerObject)

/-- The module object: the members that `Process` reads or writes. -/
structure BoostedVTreeWriter where
  fIsData : Bool
  fTrigObjs : Option (List TriggerObject)
  fJetTriggerObjs : List TriggerObject
  fConeSize : ℚ
  fNAnalyzed : Int
  fMitGPTree : MitGPTree
  /-- Entries of `fMitGPTree.tree_`, oldest first. -/
  tree_ : List MitGPTree
  fPFCandidatesPt : List ℚ
  fPFCandidatesEta : List ℚ
  fCAJetPt : List ℚ
  fCAJetEta : List ℚ
  stdout : List String

/-! ## `TString::Contains` -/

/-- Substring test on character lists: `pat` occurs in `s` as a contiguous block. -/
def containsChars (pat : List Char) : List Char → Bool
  | [] => pat.isEmpty
  | c :: cs => pat.isPrefixOf (c :: cs) || containsChars pat cs

/-- The call `trName.Contains(pat)`. -/
def Contains (trName pat : String) : Bool :=
  containsChars pat.toList trName.toList

/-! ## `GetJetTriggerObjs` and `MinTriggerDeltaR` -/

/-- The loop of `GetJetTriggerObjs` over the trigger objects (lines 381-387). -/
def jetTriggerLoop : List TriggerObject → List TriggerObject → List TriggerObject
  | [], acc => acc
  | tobj :: rest, acc =>
    if Contains tobj.TrigName "MonoCentralPFJet80_PFMETnoMu" then
      jetTriggerLoop rest (acc ++ [tobj])
    else
      jetTriggerLoop rest acc

/-- The method `BoostedVTreeWriter::GetJetTriggerObjs` (lines 368-391); `hlt` is
what `GetHLTObjects(fTriggerObjsName)` returns. -/
def GetJetTriggerObjs (hlt : Option (List TriggerObject)) (s : BoostedVTreeWriter) :
    BoostedVTreeWriter :=
  let s := { s with fJetTriggerObjs := [] }
  let s := { s with fTrigObjs := hlt }
  match s.fTrigObjs with
  | none =>
    { s with stdout := s.stdout ++
        [" BoostedVTreeWriter::Process() - ERROR - TriggerObjectCol not found\n"] }
  | some objs =>
    { s with fJetTriggerObjs := jetTriggerLoop objs s.fJetTriggerObjs }

/-- The loop of `MinTriggerDeltaR` (lines 397-401), `dR` being the running value. -/
def minTriggerLoop (X : External) (jet : LorentzVector) : List TriggerObject → ℚ → ℚ
  | [], dR => dR
  | tobj :: rest, dR =>
    let dRTest := X.DeltaR jet tobj
    if dRTest < dR then minTriggerLoop X jet rest dRTest
    else minTriggerLoop X jet rest dR

/-- The method `BoostedVTreeWriter::MinTriggerDeltaR` (lines 394-404). -/
def MinTriggerDeltaR (X : External) (s : BoostedVTreeWriter) (jet : LorentzVector) : ℚ :=
  minTriggerLoop X jet s.fJetTriggerObjs 999

/-! ## `GetTau`, the clustering step and `ProcessMc` -/

/-- The method `BoostedVTreeWriter::GetTau` (lines 266-273). Its return type is
`float`, so the `double` that `nSubNKT(iJet)` gives is rounded on return. -/
def GetTau (X : External) (s : BoostedVTreeWriter) (iJet : PseudoJet) (iN : Int) (iKappa : ℚ) : ℚ :=
  X.toFloat (X.Nsubjettiness iN iKappa s.fConeSize s.fConeSize iJet)

/-- Modelled from the spec: fastjet's `sorted_by_pt` is called by the module but
defined outside it. Spec 4.2, step 5: "Sort output jets by descending
transverse momentum". The model is the stable insertion sort on `pt()`, larger
first. -/
def sorted_by_pt (X : External) (jets : List PseudoJet) : List PseudoJet :=
  jets.insertionSort (fun a b => X.pt b ≤ X.pt a)

/-- The jet list `lOutJets` of `Process` (line 133) and `ProcessMc` (line 309):
`sorted_by_pt(lClustering->inclusive_jets(0.0))` for the particle list `lFjParts`. -/
def lOutJets (X : External) (lFjParts : List PseudoJet) : List PseudoJet :=
  sorted_by_pt X (X.inclusive_jets lFjParts)

/-- The default-constructed `fastjet::PseudoJet()`. -/
def PseudoJet.zero : PseudoJet := { px := 0, py := 0, pz := 0, E := 0 }

/-- The jet `lJet1` (lines 136-138, 312-314): the pruned hardest jet when there is one. -/
def lJet1 (X : External) (lOutJets : List PseudoJet) : PseudoJet :=
  if h : lOutJets.length > 0 then X.fPruner (lOutJets[0]) else PseudoJet.zero

/-- The jet `lJet2` (lines 139-140, 315-316): the pruned second jet when there is one. -/
def lJet2 (X : External) (lOutJets : List PseudoJet) : PseudoJet :=
  if h : lOutJets.length > 1 then X.fPruner (lOutJets[1]) else PseudoJet.zero

/-- The loop of `ProcessMc` over the generator particles (lines 289-298): `i` is
the loop index, the pair is `(nParts, lFjParts)`. -/
def mcLoop : Nat → List MCParticle → Int × List PseudoJet → Int × List PseudoJet
  | _, [], acc => acc
  | i, p :: rest, (nParts, lFjParts) =>
    if p.Status = 1 then
      mcLoop (i + 1) rest
        (nParts + 1,
         lFjParts ++ [{ px := p.Px, py := p.Py, pz := p.Pz, E := p.E, user_index := i }])
    else
      mcLoop (i + 1) rest (nParts, lFjParts)

/-- The particle list `lFjParts` that `ProcessMc` hands to the clustering. -/
def ProcessMc_lFjParts (ev : Event) : List PseudoJet :=
  (mcLoop 0 ev.fMcParts (0, [])).2

/-- The method `BoostedVTreeWriter::ProcessMc` (lines 276-365). -/
def ProcessMc (X : External) (ev : Event) (s : BoostedVTreeWriter) : BoostedVTreeWriter :=
  let nParts := (mcLoop 0 ev.fMcParts (0, [])).1
  let lFjParts := ProcessMc_lFjParts ev
  let lOut := lOutJets X lFjParts
  let j1 := lJet1 X lOut
  let j2 := lJet2 X lOut
  let s := { s with fMitGPTree :=
    { s.fMitGPTree with nGenParts_ := nParts, numGenJets_ := lOut.length } }
  if lOut.length = 0 then s
  else if X.pt j1 < 100 then s
  else
    let genJet1 : LorentzVector := { px := j1.px, py := j1.py, pz := j1.pz, e := j1.E }
    let s := { s with fMitGPTree := { s.fMitGPTree with
      genJet1_ := genJet1
      genJet1Pt_ := X.pt j1
      genJet1Eta_ := X.eta j1
      genJet1Phi_ := X.phi j1
      genJet1M_ := X.m j1
      genJet1Tau1_ := GetTau X s j1 1 1
      genJet1Tau2_ := GetTau X s j1 2 1
      genJet1Tau3_ := GetTau X s j1 3 1
      genJet1MinTrigDr_ := MinTriggerDeltaR X s genJet1 } }
    if lOut.length > 1 then
      let genJet2 : LorentzVector := { px := j2.px, py := j2.py, pz := j2.pz, e := j2.E }
      { s with fMitGPTree := { s.fMitGPTree with
        genJet2_ := genJet2
        genJet2Pt_ := X.pt j2
        genJet2Eta_ := X.eta j2
        genJet2Phi_ := X.phi j2
        genJet2M_ := X.m j2
        genJet2Tau1_ := GetTau X s j2 1 1
        genJet2Tau2_ := GetTau X s j2 2 1
        genJet2Tau3_ := GetTau X s j2 3 1
        genJet2MinTrigDr_ := MinTriggerDeltaR X s genJet2 } }
    else s

/-! ## `Process` -/

/-- Lines 66-80 of `Process`: trigger objects, `InitVariables`, `ProcessMc` for
simulated events, event counter. -/
def preLoop (X : External) (ev : Event) (s : BoostedVTreeWriter) : BoostedVTreeWriter :=
  let s := GetJetTriggerObjs ev.hltFirst s
  let s := { s with fMitGPTree := X.InitVariables s.fMitGPTree }
  let s := if ! s.fIsData then ProcessMc X ev s else s
  { s with fNAnalyzed := s.fNAnalyzed + 1 }

/-- The loop over the trigger objects inside the jet loop (lines 97-105). -/
def triggerLoop : List TriggerObject → MitGPTree → MitGPTree
  | [], t => t
  | tobj :: rest, t =>
    let trName := tobj.TrigName
    let t := if Contains trName "MonoCentralPFJet80_PFMETnoMu" then
        { t with trigger_ := t.trigger_ ||| (1 <<< 0) } else t
    let t := if Contains trName "HLT_MET120_HBHENoiseCleaned_v" then
        { t with trigger_ := t.trigger_ ||| (1 <<< 1) } else t
    triggerLoop rest t

/-- The loop over the candidates of the jet (lines 109-122): `j` is the loop
index, the pair is the module object and `lFjParts`. -/
def candLoop : Nat → List PFCandidate → BoostedVTreeWriter × List PseudoJet →
    BoostedVTreeWriter × List PseudoJet
  | _, [], acc => acc
  | j, pfCand :: rest, (s, lFjParts) =>
    let lFjParts := lFjParts ++
      [{ px := pfCand.Px, py := pfCand.Py, pz := pfCand.Pz, E := pfCand.E, user_index := j }]
    let s := { s with
      fPFCandidatesPt := s.fPFCandidatesPt ++ [pfCand.Pt]
      fPFCandidatesEta := s.fPFCandidatesEta ++ [pfCand.Eta] }
    let s := if j = 0 then
        { s with fMitGPTree := { s.fMitGPTree with
            eta_ := pfCand.Eta, phi_ := pfCand.Phi, pt_ := pfCand.Pt } }
      else s
    candLoop (j + 1) rest (s, lFjParts)

/-- The jet loop of `Process` (lines 83-124). Its body ends in an unconditional
`break`, so only the entry at index 0 is ever looked at. The result is the
module object and the particle list `lFjParts`. -/
def jetLoop (ev : Event) (s : BoostedVTreeWriter) : BoostedVTreeWriter × List PseudoJet :=
  match ev.fJets with
  | [] => (s, [])
  | Jet.other :: _ =>
    ({ s with stdout := s.stdout ++
        [" BoostedVTreeWriter::Process() - ERROR - jets provided are not PFJets."] }, [])
  | Jet.pfJet jet :: _ =>
    let s := { s with fTrigObjs := ev.hltSecond }
    let s := match s.fTrigObjs with
      | none =>
        { s with stdout := s.stdout ++
            [" BoostedVTreeWriter::Process() - ERROR - TriggerObjectCol not found\n"] }
      | some objs => { s with fMitGPTree := triggerLoop objs s.fMitGPTree }
    candLoop 0 jet.cands (s, [])

/-- Lines 126-196 of `Process`: clustering, the two cuts, the record. -/
def afterLoop (X : External) (ev : Event) (s : BoostedVTreeWriter)
    (lFjParts : List PseudoJet) : BoostedVTreeWriter :=
  let lOut := lOutJets X lFjParts
  let j1 := lJet1 X lOut
  let j2 := lJet2 X lOut
  let s := { s with fMitGPTree :=
    { s.fMitGPTree with nParts_ := ev.fPFCandidates.length, numJets_ := lOut.length } }
  if lOut.length = 0 then s
  else
    let s := { s with
      fCAJetPt := s.fCAJetPt ++ [X.pt j1]
      fCAJetEta := s.fCAJetEta ++ [X.eta j1] }
    if X.pt j1 < 100 then s
    else
      let jet1 : LorentzVector := { px := j1.px, py := j1.py, pz := j1.pz, e := j1.E }
      let s := { s with fMitGPTree := { s.fMitGPTree with
        jet1_ := jet1
        jet1Pt_ := X.pt j1
        jet1Eta_ := X.eta j1
        jet1Phi_ := X.phi j1
        jet1M_ := X.m j1
        jet1Tau1_ := GetTau X s j1 1 1
        jet1Tau2_ := GetTau X s j1 2 1
        jet1Tau3_ := GetTau X s j1 3 1
        jet1MinTrigDr_ := MinTriggerDeltaR X s jet1 } }
      let s := if lOut.length > 1 then
          let jet2 : LorentzVector := { px := j2.px, py := j2.py, pz := j2.pz, e := j2.E }
          { s with fMitGPTree := { s.fMitGPTree with
            jet2_ := jet2
            jet2Pt_ := X.pt j2
            jet2Eta_ := X.eta j2
            jet2Phi_ := X.phi j2
            jet2M_ := X.m j2
            jet2Tau1_ := GetTau X s j2 1 1
            jet2Tau2_ := GetTau X s j2 2 1
            jet2Tau3_ := GetTau X s j2 3 1
            jet2MinTrigDr_ := MinTriggerDeltaR X s jet2 } }
        else s
      { s with tree_ := s.tree_ ++ [s.fMitGPTree] }

/-- The particle list `lFjParts` that `Process` hands to the clustering. -/
def Process_lFjParts (X : External) (ev : Event) (s : BoostedVTreeWriter) : List PseudoJet :=
  (jetLoop ev (preLoop X ev s)).2

/-- The method `BoostedVTreeWriter::Process` (lines 64-196). -/
def Process (X : External) (ev : Event) (s : BoostedVTreeWriter) : BoostedVTreeWriter :=
  afterLoop X ev (jetLoop ev (preLoop X ev s)).1 (Process_lFjParts X ev s)

/-! ## Readings of the module object used in the statements -/

/-- The `jet1` and `jet2` branch variables of a tree, in the order `Process`
writes them (lines 167-175 and 179-187). -/
def jetFields (t : MitGPTree) :
    (LorentzVector × ℚ × ℚ × ℚ × ℚ × ℚ × ℚ × ℚ × ℚ) ×
    (LorentzVector × ℚ × ℚ × ℚ × ℚ × ℚ × ℚ × ℚ × ℚ) :=
  ((t.jet1_, t.jet1Pt_, t.jet1Eta_, t.jet1Phi_, t.jet1M_, t.jet1Tau1_, t.jet1Tau2_,
    t.jet1Tau3_, t.jet1MinTrigDr_),
   (t.jet2_, t.jet2Pt_, t.jet2Eta_, t.jet2Phi_, t.jet2M_, t.jet2Tau1_, t.jet2Tau2_,
    t.jet2Tau3_, t.jet2MinTrigDr_))

/-! ## Sample data used to evaluate the definitions -/

/-- A tree whose branch variables are all zero. -/
def zeroTree : MitGPTree :=
  { trigger_ := 0, eta_ := 0, phi_ := 0, pt_ := 0, nParts_ := 0, numJets_ := 0
    jet1_ := ⟨0, 0, 0, 0⟩, jet1Pt_ := 0, jet1Eta_ := 0, jet1Phi_ := 0, jet1M_ := 0
    jet1Tau1_ := 0, jet1Tau2_ := 0, jet1Tau3_ := 0, jet1MinTrigDr_ := 0
    jet2_ := ⟨0, 0, 0, 0⟩, jet2Pt_ := 0, jet2Eta_ := 0, jet2Phi_ := 0, jet2M_ := 0
    jet2Tau1_ := 0, jet2Tau2_ := 0, jet2Tau3_ := 0, jet2MinTrigDr_ := 0
    nGenParts_ := 0, numGenJets_ := 0
    genJet1_ := ⟨0, 0, 0, 0⟩, genJet1Pt_ := 0, genJet1Eta_ := 0, genJet1Phi_ := 0
    genJet1M_ := 0, genJet1Tau1_ := 0, genJet1Tau2_ := 0, genJet1Tau3_ := 0
    genJet1MinTrigDr_ := 0
    genJet2_ := ⟨0, 0, 0, 0⟩, genJet2Pt_ := 0, genJet2Eta_ := 0, genJet2Phi_ := 0
    genJet2M_ := 0, genJet2Tau1_ := 0, genJet2Tau2_ := 0, genJet2Tau3_ := 0
    genJet2MinTrigDr_ := 0 }

/-- A sample instance of the outside world, for jets in the x-z half plane
(`py = 0`, `px ≥ 0`, so `pt = px` and `φ = 0`) and trigger objects at `φ = 0`
seen from a jet at `η = 0` (so `ΔR = |η|` of the object): every particle is a
jet of its own, the pruner keeps a jet as it is, the sample values are exact
in single precision, `InitVariables` zeroes the tree. -/
def sampleExternal : External :=
  { inclusive_jets := fun parts => parts
    fPruner := fun j => j
    pt := fun j => j.px
    eta := fun _ => 0
    phi := fun _ => 0
    m := fun _ => 0
    Nsubjettiness := fun _ _ _ _ _ => 0
    toFloat := fun x => x
    DeltaR := fun _ tobj => |tobj.eta|
    InitVariables := fun _ => zeroTree }

/-- A module object before its first event, as the constructor leaves it. -/
def freshWriter : BoostedVTreeWriter :=
  { fIsData := true, fTrigObjs := none, fJetTriggerObjs := [], fConeSize := 4 / 5
    fNAnalyzed := 0, fMitGPTree := zeroTree, tree_ := []
    fPFCandidatesPt := [], fPFCandidatesEta := [], fCAJetPt := [], fCAJetEta := []
    stdout := [] }

/-- A jet direction along the x axis. -/
def xAxisJet : LorentzVector := ⟨150, 0, 0, 150⟩

/-- A mono-jet trigger object at `η = 1`. -/
def monoJetObj : TriggerObject :=
  { TrigName := "HLT_MonoCentralPFJet80_PFMETnoMu95_NHEF0p95_v3", eta := 1, phi := 0 }

/-- A mono-jet trigger object at `η = 2`. -/
def monoJetObjWide : TriggerObject :=
  { TrigName := "HLT_MonoCentralPFJet80_PFMETnoMu95_NHEF0p95_v3", eta := 2, phi := 0 }

/-- A mono-jet trigger object at `η = 1000`. -/
def monoJetObjFar : TriggerObject :=
  { TrigName := "HLT_MonoCentralPFJet80_PFMETnoMu95_NHEF0p95_v3", eta := 1000, phi := 0 }

/-- A MET trigger object. -/
def metObj : TriggerObject :=
  { TrigName := "HLT_MET120_HBHENoiseCleaned_v4", eta := 0, phi := 0 }

/-- A candidate of momentum `px` along the x axis. -/
def candAlongX (px : ℚ) : PFCandidate :=
  { Px := px, Py := 0, Pz := 0, E := px, Pt := px, Eta := 0, Phi := 0 }

/-- A jet of two candidates, the harder one with `pt = 150`. -/
def hardJet : PFJet := { cands := [candAlongX 150, candAlongX 30] }

/-- A jet of two candidates, the harder one with `pt = 80`. -/
def softJet : PFJet := { cands := [candAlongX 80, candAlongX 30] }

/-- A generator particle of momentum `px` along the x axis. -/
def genAlongX (status : Int) (px : ℚ) : MCParticle :=
  { Status := status, Px := px, Py := 0, Pz := 0, E := px }

/-- An event with a hard first jet, a second jet, a mono-jet trigger object and
three generator particles, the middle one not final-state. -/
def hardEvent : Event :=
  { fJets := [Jet.pfJet hardJet, Jet.pfJet softJet]
    fPFCandidates := hardJet.cands ++ softJet.cands
    fMcParts := [genAlongX 1 150, genAlongX 3 40, genAlongX 1 30]
    hltFirst := some [metObj, monoJetObj]
    hltSecond := some [metObj, monoJetObj] }

/-- The sample event with the soft jet first: the hardest particle has `pt = 80`. -/
def softEvent : Event :=
  { hardEvent with fJets := [Jet.pfJet softJet, Jet.pfJet hardJet] }

/-- An event without any particle to cluster: the jet collection is empty. -/
def emptyEvent : Event :=
  { hardEvent with fJets := [] }

/-- An event whose hardest particle sits exactly at `pt = 100`. -/
def thresholdEvent : Event :=
  { hardEvent with fJets := [Jet.pfJet { cands := [candAlongX 30, candAlongX 100] }] }

/-- An event whose first jet-collection entry is not a PFJet. -/
def badEvent : Event :=
  { hardEvent with fJets := [Jet.other, Jet.pfJet hardJet] }

/-! ## Lemmas on the trigger-object loops -/

theorem jetTriggerLoop_eq (objs acc : List TriggerObject) :
    jetTriggerLoop objs acc =
      acc ++ objs.filter (fun o => Contains o.TrigName "MonoCentralPFJet80_PFMETnoMu") := by
  induction objs generalizing acc with
  | nil => simp [jetTriggerLoop]
  | cons o rest ih =>
    by_cases h : Contains o.TrigName "MonoCentralPFJet80_PFMETnoMu" = true
    · simp [jetTriggerLoop, h, ih]
    · simp [jetTriggerLoop, h, ih]

theorem GetJetTriggerObjs_none (s : BoostedVTreeWriter) :
    (GetJetTriggerObjs none s).fJetTriggerObjs = [] := by
  simp [GetJetTriggerObjs]

theorem GetJetTriggerObjs_some (objs : List TriggerObject) (s : BoostedVTreeWriter) :
    (GetJetTriggerObjs (some objs) s).fJetTriggerObjs =
      objs.filter (fun o => Contains o.TrigName "MonoCentralPFJet80_PFMETnoMu") := by
  simp [GetJetTriggerObjs, jetTriggerLoop_eq]

theorem minTriggerLoop_le_start (X : External) (jet : LorentzVector)
    (objs : List TriggerObject) (dR : ℚ) : minTriggerLoop X jet objs dR ≤ dR := by
  induction objs generalizing dR with
  | nil => simp [minTriggerLoop]
  | cons o rest ih =>
    simp only [minTriggerLoop]
    split
    · exact le_trans (ih _) (le_of_lt (by assumption))
    · exact ih _

theorem minTriggerLoop_le_each (X : External) (jet : LorentzVector)
    (objs : List TriggerObject) (dR : ℚ) :
    ∀ o ∈ objs, minTriggerLoop X jet objs dR ≤ X.DeltaR jet o := by
  induction objs generalizing dR with
  | nil => simp
  | cons a rest ih =>
    intro o ho
    simp only [minTriggerLoop]
    rcases List.mem_cons.mp ho with rfl | hmem
    · split
      · exact minTriggerLoop_le_start X jet rest _
      · exact le_trans (minTriggerLoop_le_start X jet rest _) (not_lt.mp (by assumption))
    · split
      · exact ih _ o hmem
      · exact ih _ o hmem

theorem minTriggerLoop_attained (X : External) (jet : LorentzVector)
    (objs : List TriggerObject) (dR : ℚ) :
    minTriggerLoop X jet objs dR = dR ∨
      ∃ o ∈ objs, minTriggerLoop X jet objs dR = X.DeltaR jet o := by
  induction objs generalizing dR with
  | nil => simp [minTriggerLoop]
  | cons a rest ih =>
    simp only [minTriggerLoop]
    split
    · rcases ih (X.DeltaR jet a) with h | ⟨o, ho, h⟩
      · exact Or.inr ⟨a, List.mem_cons_self _ _, h⟩
      · exact Or.inr ⟨o, List.mem_cons_of_mem _ ho, h⟩
    · rcases ih dR with h | ⟨o, ho, h⟩
      · exact Or.inl h
      · exact Or.inr ⟨o, List.mem_cons_of_mem _ ho, h⟩

/-! ## Claims on the trigger matcher -/

/-- C2: `MinTriggerDeltaR` returns exactly 999, whatever the jet, when the
filtered trigger-object set is empty; in particular after `GetJetTriggerObjs`
has run on an event whose trigger collection is unavailable, or in which no
trigger name contains the filter substring. -/
theorem MinTriggerDeltaR_empty_is_999 (X : External) (jet : LorentzVector) :
    (∀ s : BoostedVTreeWriter, s.fJetTriggerObjs = [] → MinTriggerDeltaR X s jet = 999) ∧
    (∀ s : BoostedVTreeWriter, MinTriggerDeltaR X (GetJetTriggerObjs none s) jet = 999) ∧
    (∀ (s : BoostedVTreeWriter) (objs : List TriggerObject),
      (∀ o ∈ objs, Contains o.TrigName "MonoCentralPFJet80_PFMETnoMu" = false) →
      MinTriggerDeltaR X (GetJetTriggerObjs (some objs) s) jet = 999) := by
  refine ⟨?_, ?_, ?_⟩
  · intro s h
    simp [MinTriggerDeltaR, h, minTriggerLoop]
  · intro s
    simp [MinTriggerDeltaR, GetJetTriggerObjs_none, minTriggerLoop]
  · intro s objs h
    have hf : objs.filter (fun o => Contains o.TrigName "MonoCentralPFJet80_PFMETnoMu") = [] := by
      rw [List.filter_eq_nil_iff]
      intro o ho
      simp [h o ho]
    simp [MinTriggerDeltaR, GetJetTriggerObjs_some, hf, minTriggerLoop]

/-- Witness of C2: the three cases at the sample data (an empty cache, no
trigger collection, a collection holding only a MET trigger object). -/
theorem MinTriggerDeltaR_empty_is_999_witness :
    freshWriter.fJetTriggerObjs = [] ∧
    MinTriggerDeltaR sampleExternal freshWriter xAxisJet = 999 ∧
    MinTriggerDeltaR sampleExternal (GetJetTriggerObjs none freshWriter) xAxisJet = 999 ∧
    (∀ o ∈ [metObj], Contains o.TrigName "MonoCentralPFJet80_PFMETnoMu" = false) ∧
    MinTriggerDeltaR sampleExternal (GetJetTriggerObjs (some [metObj]) freshWriter) xAxisJet
      = 999 :=
  ⟨rfl,
   (MinTriggerDeltaR_empty_is_999 sampleExternal xAxisJet).1 freshWriter rfl,
   (MinTriggerDeltaR_empty_is_999 sampleExternal xAxisJet).2.1 freshWriter,
   by decide,
   (MinTriggerDeltaR_empty_is_999 sampleExternal xAxisJet).2.2 freshWriter [metObj] (by decide)⟩

/-- C3, as stated, fails: with the single filtered trigger object at `ΔR = 1000`
from the jet, `MinTriggerDeltaR` returns the starting value 999, which is the
separation to no object of the set. -/
theorem MinTriggerDeltaR_min_counterexample :
    ({ freshWriter with fJetTriggerObjs := [monoJetObjFar] }).fJetTriggerObjs ≠ [] ∧
    sampleExternal.DeltaR xAxisJet monoJetObjFar = 1000 ∧
    MinTriggerDeltaR sampleExternal
      { freshWriter with fJetTriggerObjs := [monoJetObjFar] } xAxisJet = 999 ∧
    ¬ (∃ o ∈ ({ freshWriter with fJetTriggerObjs := [monoJetObjFar] }).fJetTriggerObjs,
        MinTriggerDeltaR sampleExternal
          { freshWriter with fJetTriggerObjs := [monoJetObjFar] } xAxisJet
          = sampleExternal.DeltaR xAxisJet o) := by
  have h1 : sampleExternal.DeltaR xAxisJet monoJetObjFar = 1000 := by
    simp [sampleExternal, monoJetObjFar]
  have h2 : MinTriggerDeltaR sampleExternal
      { freshWriter with fJetTriggerObjs := [monoJetObjFar] } xAxisJet = 999 := by
    simp only [MinTriggerDeltaR, minTriggerLoop, h1]
    norm_num
  refine ⟨by simp, h1, h2, ?_⟩
  rintro ⟨o, ho, h⟩
  simp only [List.mem_singleton] at ho
  subst ho
  rw [h1, h2] at h
  norm_num at h

/-- C3, amended: for every jet and every non-empty filtered trigger-object set,
`MinTriggerDeltaR` returns the smaller of 999 and the minimum separation: the
result is at most 999 and at most `DeltaR` to every object of the set; when some
object of the set is closer than 999 the result equals `DeltaR` to some object
of the set, and when none is, the result is 999. -/
theorem MinTriggerDeltaR_capped_min (X : External) (s : BoostedVTreeWriter)
    (jet : LorentzVector) (hne : s.fJetTriggerObjs ≠ []) :
    MinTriggerDeltaR X s jet ≤ 999 ∧
    (∀ o ∈ s.fJetTriggerObjs, MinTriggerDeltaR X s jet ≤ X.DeltaR jet o) ∧
    ((∃ o ∈ s.fJetTriggerObjs, X.DeltaR jet o < 999) →
      ∃ o ∈ s.fJetTriggerObjs, MinTriggerDeltaR X s jet = X.DeltaR jet o) ∧
    ((∀ o ∈ s.fJetTriggerObjs, 999 ≤ X.DeltaR jet o) → MinTriggerDeltaR X s jet = 999) := by
  have _hne := hne
  refine ⟨minTriggerLoop_le_start X jet _ 999, minTriggerLoop_le_each X jet _ 999, ?_, ?_⟩
  · rintro ⟨o, ho, hlt⟩
    rcases minTriggerLoop_attained X jet s.fJetTriggerObjs 999 with h | h
    · have hle := minTriggerLoop_le_each X jet s.fJetTriggerObjs 999 o ho
      rw [h] at hle
      exact absurd hlt (not_lt.mpr hle)
    · exact h
  · intro hall
    rcases minTriggerLoop_attained X jet s.fJetTriggerObjs 999 with h | ⟨o, ho, h⟩
    · exact h
    · exact le_antisymm (minTriggerLoop_le_start X jet _ 999) (by
        unfold MinTriggerDeltaR
        rw [h]
        exact hall o ho)

/-- Witness of the amended C3: two mono-jet objects at `ΔR` 2 and 1; the
result is 1. -/
theorem MinTriggerDeltaR_capped_min_witness :
    ({ freshWriter with fJetTriggerObjs := [monoJetObjWide, monoJetObj] }).fJetTriggerObjs ≠ [] ∧
    MinTriggerDeltaR sampleExternal
      { freshWriter with fJetTriggerObjs := [monoJetObjWide, monoJetObj] } xAxisJet = 1 ∧
    (∀ o ∈ ({ freshWriter with fJetTriggerObjs := [monoJetObjWide, monoJetObj] }).fJetTriggerObjs,
      MinTriggerDeltaR sampleExternal
        { freshWriter with fJetTriggerObjs := [monoJetObjWide, monoJetObj] } xAxisJet
        ≤ sampleExternal.DeltaR xAxisJet o) :=
  ⟨by simp,
   by decide,
   (MinTriggerDeltaR_capped_min sampleExternal
      { freshWriter with fJetTriggerObjs := [monoJetObjWide, monoJetObj] } xAxisJet
      (by simp)).2.1⟩

/-- C4: after `GetJetTriggerObjs` the cached set is exactly the trigger objects
of the current event whose name contains "MonoCentralPFJet80_PFMETnoMu", in
their original order (empty when the collection is unavailable), whatever the
cache held before: nothing cached earlier survives, and a second call on the
same event changes nothing. -/
theorem GetJetTriggerObjs_filtered_set :
    (∀ s : BoostedVTreeWriter, (GetJetTriggerObjs none s).fJetTriggerObjs = []) ∧
    (∀ (objs : List TriggerObject) (s : BoostedVTreeWriter),
      (GetJetTriggerObjs (some objs) s).fJetTriggerObjs =
        objs.filter (fun o => Contains o.TrigName "MonoCentralPFJet80_PFMETnoMu")) ∧
    (∀ (hlt : Option (List TriggerObject)) (s s' : BoostedVTreeWriter),
      (GetJetTriggerObjs hlt s).fJetTriggerObjs = (GetJetTriggerObjs hlt s').fJetTriggerObjs) ∧
    (∀ (hlt : Option (List TriggerObject)) (s : BoostedVTreeWriter),
      (GetJetTriggerObjs hlt (GetJetTriggerObjs hlt s)).fJetTriggerObjs =
        (GetJetTriggerObjs hlt s).fJetTriggerObjs) := by
  refine ⟨GetJetTriggerObjs_none, GetJetTriggerObjs_some, ?_, ?_⟩
  · intro hlt s s'
    cases hlt with
    | none => rw [GetJetTriggerObjs_none, GetJetTriggerObjs_none]
    | some objs => rw [GetJetTriggerObjs_some, GetJetTriggerObjs_some]
  · intro hlt s
    cases hlt with
    | none => rw [GetJetTriggerObjs_none, GetJetTriggerObjs_none]
    | some objs => rw [GetJetTriggerObjs_some, GetJetTriggerObjs_some]

/-! ## Lemmas on the particle-collecting loops -/

theorem candLoop_parts (j : Nat) (cands : List PFCandidate) (s : BoostedVTreeWriter)
    (acc : List PseudoJet) :
    (candLoop j cands (s, acc)).2 =
      acc ++ (cands.enumFrom j).map (fun p =>
        ({ px := p.2.Px, py := p.2.Py, pz := p.2.Pz, E := p.2.E, user_index := p.1 } :
          PseudoJet)) := by
  induction cands generalizing j s acc with
  | nil => simp [candLoop]
  | cons c rest ih => simp [candLoop, ih]

theorem jetLoop_parts_pfJet (ev : Event) (s : BoostedVTreeWriter) (jet : PFJet)
    (rest : List Jet) (h : ev.fJets = Jet.pfJet jet :: rest) :
    (jetLoop ev s).2 =
      jet.cands.enum.map (fun p =>
        ({ px := p.2.Px, py := p.2.Py, pz := p.2.Pz, E := p.2.E, user_index := p.1 } :
          PseudoJet)) := by
  simp [jetLoop, h, candLoop_parts, List.enum]

theorem mcLoop_eq (i : Nat) (ps : List MCParticle) (n : Int) (acc : List PseudoJet) :
    mcLoop i ps (n, acc) =
      (n + (((ps.enumFrom i).filter (fun p => decide (p.2.Status = 1))).length : Int),
       acc ++ ((ps.enumFrom i).filter (fun p => decide (p.2.Status = 1))).map (fun p =>
        ({ px := p.2.Px, py := p.2.Py, pz := p.2.Pz, E := p.2.E, user_index := p.1 } :
          PseudoJet))) := by
  induction ps generalizing i n acc with
  | nil => simp [mcLoop]
  | cons p rest ih =>
    by_cases h : p.Status = 1
    · simp [mcLoop, h, ih, add_assoc, add_comm]
    · simp [mcLoop, h, ih]

theorem enumFrom_pairwise_fst_lt {α : Type} (l : List α) (i : Nat) :
    (l.enumFrom i).Pairwise (fun a b => a.1 < b.1) := by
  induction l generalizing i with
  | nil => simp
  | cons a rest ih =>
    rw [List.enumFrom_cons, List.pairwise_cons]
    refine ⟨?_, ih (i + 1)⟩
    intro b hb
    have := List.le_fst_of_mem_enumFrom hb
    show i < b.1
    omega

theorem enumFrom_filter_snd {α : Type} (f : α → Bool) (l : List α) (i : Nat) :
    ((l.enumFrom i).filter (fun p => f p.2)).map Prod.snd = l.filter f := by
  induction l generalizing i with
  | nil => simp
  | cons a rest ih =>
    by_cases h : f a = true
    · simp [List.filter_cons, h, ih]
    · simp [List.filter_cons, h, ih]

theorem ProcessMc_nGenParts (X : External) (ev : Event) (s : BoostedVTreeWriter) :
    (ProcessMc X ev s).fMitGPTree.nGenParts_ = (mcLoop 0 ev.fMcParts (0, [])).1 := by
  unfold ProcessMc
  simp only
  split_ifs <;> rfl

/-! ## Claims on the particle collection -/

/-- C5: when the first entry of the jet collection is a PFJet with `n`
candidates, the particle list handed to the clustering has exactly `n` entries,
the `k`-th being the four-momentum `(px,py,pz,E)` of the first jet's `k`-th
candidate with source index `k`; later jets never contribute: any other event
with the same first jet gives the same particle list. -/
theorem Process_lFjParts_first_jet (X : External) (ev : Event) (s : BoostedVTreeWriter)
    (jet : PFJet) (rest : List Jet) (h : ev.fJets = Jet.pfJet jet :: rest) :
    (Process_lFjParts X ev s).length = jet.cands.length ∧
    (∀ (k : Nat) (hk : k < jet.cands.length),
      (Process_lFjParts X ev s)[k]? =
        some { px := (jet.cands[k]).Px, py := (jet.cands[k]).Py, pz := (jet.cands[k]).Pz,
               E := (jet.cands[k]).E, user_index := (k : Int) }) ∧
    (∀ (X' : External) (ev' : Event) (s' : BoostedVTreeWriter) (rest' : List Jet),
      ev'.fJets = Jet.pfJet jet :: rest' →
      Process_lFjParts X' ev' s' = Process_lFjParts X ev s) := by
  have hparts := jetLoop_parts_pfJet ev (preLoop X ev s) jet rest h
  refine ⟨?_, ?_, ?_⟩
  · simp [Process_lFjParts, hparts, List.enum]
  · intro k hk
    simp [Process_lFjParts, hparts, List.enum, List.getElem?_enumFrom, List.getElem?_eq_getElem hk]
  · intro X' ev' s' rest' h'
    simp [Process_lFjParts, hparts, jetLoop_parts_pfJet ev' (preLoop X' ev' s') jet rest' h']

/-- Witness of C5: the sample event, whose first jet has candidates of momentum
150 and 30; the second jet of the collection leaves no trace. -/
theorem Process_lFjParts_first_jet_witness :
    hardEvent.fJets = Jet.pfJet hardJet :: [Jet.pfJet softJet] ∧
    Process_lFjParts sampleExternal hardEvent freshWriter =
      [{ px := 150, py := 0, pz := 0, E := 150, user_index := 0 },
       { px := 30, py := 0, pz := 0, E := 30, user_index := 1 }] ∧
    (Process_lFjParts sampleExternal hardEvent freshWriter).length = hardJet.cands.length :=
  ⟨rfl, by decide,
   (Process_lFjParts_first_jet sampleExternal hardEvent freshWriter hardJet
      [Jet.pfJet softJet] rfl).1⟩

/-- C9: the particle list `ProcessMc` hands to the clustering is the
sub-sequence, in the original order, of the generator particles with status 1;
every collected particle carries the four-momentum of its generator particle
and, as source index, that particle's position in the input collection, so the
source indices increase strictly; and `nGenParts_` is the length of the list. -/
theorem ProcessMc_lFjParts_status_one (X : External) (ev : Event) (s : BoostedVTreeWriter) :
    ProcessMc_lFjParts ev =
      (ev.fMcParts.enum.filter (fun p => decide (p.2.Status = 1))).map (fun p =>
        ({ px := p.2.Px, py := p.2.Py, pz := p.2.Pz, E := p.2.E, user_index := p.1 } :
          PseudoJet)) ∧
    (ProcessMc_lFjParts ev).map (fun q => (q.px, q.py, q.pz, q.E)) =
      (ev.fMcParts.filter (fun p => decide (p.Status = 1))).map
        (fun p => (p.Px, p.Py, p.Pz, p.E)) ∧
    (∀ q ∈ ProcessMc_lFjParts ev, ∃ (i : Nat) (p : MCParticle),
      ev.fMcParts[i]? = some p ∧ p.Status = 1 ∧
      q = { px := p.Px, py := p.Py, pz := p.Pz, E := p.E, user_index := (i : Int) }) ∧
    (ProcessMc_lFjParts ev).Pairwise (fun a b => a.user_index < b.user_index) ∧
    (ProcessMc X ev s).fMitGPTree.nGenParts_ = ((ProcessMc_lFjParts ev).length : Int) := by
  have hloop := mcLoop_eq 0 ev.fMcParts 0 []
  have hparts : ProcessMc_lFjParts ev =
      (ev.fMcParts.enum.filter (fun p => decide (p.2.Status = 1))).map (fun p =>
        ({ px := p.2.Px, py := p.2.Py, pz := p.2.Pz, E := p.2.E, user_index := p.1 } :
          PseudoJet)) := by
    simp [ProcessMc_lFjParts, hloop, List.enum]
  refine ⟨hparts, ?_, ?_, ?_, ?_⟩
  · rw [hparts, List.map_map]
    have h := enumFrom_filter_snd (fun p : MCParticle => decide (p.Status = 1)) ev.fMcParts 0
    rw [← h, List.map_map]
    rfl
  · intro q hq
    rw [hparts, List.mem_map] at hq
    obtain ⟨⟨i, p⟩, hmem, rfl⟩ := hq
    rw [List.mem_filter] at hmem
    refine ⟨i, p, List.mk_mem_enum_iff_getElem?.mp hmem.1, ?_, rfl⟩
    simpa using hmem.2
  · rw [hparts, List.pairwise_map]
    refine List.Pairwise.sublist (List.filter_sublist _) ?_
    exact (enumFrom_pairwise_fst_lt ev.fMcParts 0).imp (fun hab => by
      show ((_ : Nat) : Int) < ((_ : Nat) : Int)
      exact_mod_cast hab)
  · rw [ProcessMc_nGenParts, hloop, hparts]
    simp [List.enum]

/-! ## Claim on the order of the clustered jets -/

theorem sorted_by_pt_pairwise (X : External) (jets : List PseudoJet) :
    (sorted_by_pt X jets).Pairwise (fun a b => X.pt b ≤ X.pt a) := by
  haveI : IsTotal PseudoJet (fun a b => X.pt b ≤ X.pt a) := ⟨fun a b => le_total _ _⟩
  haveI : IsTrans PseudoJet (fun a b => X.pt b ≤ X.pt a) := ⟨fun _ _ _ h1 h2 => le_trans h2 h1⟩
  exact List.sorted_insertionSort (fun a b => X.pt b ≤ X.pt a) jets

/-- C7: the jet list that `Process` and `ProcessMc` obtain from the clustering
(`lOutJets`, for whatever particle list, the non-empty ones included) is sorted
by non-increasing `pt`: it holds the jets of the clustering, each once, and a
jet never has a larger `pt` than one before it, so the jet at index 0 has `pt`
at least that of every output jet and the jet at index 1 has `pt` at least that
of every jet after it. -/
theorem lOutJets_pt_nonincreasing (X : External) (lFjParts : List PseudoJet) :
    (lOutJets X lFjParts).Perm (X.inclusive_jets lFjParts) ∧
    (lOutJets X lFjParts).Pairwise (fun a b => X.pt b ≤ X.pt a) ∧
    (∀ (i j : Nat) (hj : j < (lOutJets X lFjParts).length) (hij : i ≤ j),
      X.pt ((lOutJets X lFjParts)[j]) ≤
        X.pt ((lOutJets X lFjParts).get ⟨i, Nat.lt_of_le_of_lt hij hj⟩)) ∧
    (∀ (j : Nat) (hj : j < (lOutJets X lFjParts).length),
      X.pt ((lOutJets X lFjParts)[j]) ≤
        X.pt ((lOutJets X lFjParts).get ⟨0, Nat.lt_of_le_of_lt (Nat.zero_le j) hj⟩)) ∧
    (∀ (j : Nat) (hj : j < (lOutJets X lFjParts).length) (h1 : 1 ≤ j),
      X.pt ((lOutJets X lFjParts)[j]) ≤
        X.pt ((lOutJets X lFjParts).get ⟨1, Nat.lt_of_le_of_lt h1 hj⟩)) := by
  have hs : (lOutJets X lFjParts).Pairwise (fun a b => X.pt b ≤ X.pt a) :=
    sorted_by_pt_pairwise X (X.inclusive_jets lFjParts)
  have hmono : ∀ (i j : Nat) (hj : j < (lOutJets X lFjParts).length) (hij : i ≤ j),
      X.pt ((lOutJets X lFjParts)[j]) ≤
        X.pt ((lOutJets X lFjParts).get ⟨i, Nat.lt_of_le_of_lt hij hj⟩) := by
    intro i j hj hij
    rcases Nat.eq_or_lt_of_le hij with heq | hlt
    · subst heq
      exact le_refl _
    · exact (List.pairwise_iff_getElem.mp hs) i j (Nat.lt_of_le_of_lt hij hj) hj hlt
  exact ⟨List.perm_insertionSort _ _, hs, hmono, fun j hj => hmono 0 j hj (Nat.zero_le j),
    fun j hj h1 => hmono 1 j hj h1⟩

/-- Witness of C7: three particles of `pt` 30, 150 and 80 come out as 150, 80, 30. -/
theorem lOutJets_pt_nonincreasing_witness :
    (lOutJets sampleExternal
      [{ px := 30, py := 0, pz := 0, E := 30 }, { px := 150, py := 0, pz := 0, E := 150 },
       { px := 80, py := 0, pz := 0, E := 80 }]).map sampleExternal.pt = [150, 80, 30] ∧
    sampleExternal.pt ((lOutJets sampleExternal
      [{ px := 30, py := 0, pz := 0, E := 30 }, { px := 150, py := 0, pz := 0, E := 150 },
       { px := 80, py := 0, pz := 0, E := 80 }]).get ⟨2, by decide⟩) ≤
    sampleExternal.pt ((lOutJets sampleExternal
      [{ px := 30, py := 0, pz := 0, E := 30 }, { px := 150, py := 0, pz := 0, E := 150 },
       { px := 80, py := 0, pz := 0, E := 80 }]).get ⟨1, by decide⟩) :=
  ⟨by decide,
   (lOutJets_pt_nonincreasing sampleExternal
      [{ px := 30, py := 0, pz := 0, E := 30 }, { px := 150, py := 0, pz := 0, E := 150 },
       { px := 80, py := 0, pz := 0, E := 80 }]).2.2.2.2 2 (by decide) (by decide)⟩

/-! ## What each stage of `Process` leaves untouched -/

theorem ProcessMc_keeps (X : External) (ev : Event) (s : BoostedVTreeWriter) :
    (ProcessMc X ev s).fJetTriggerObjs = s.fJetTriggerObjs ∧
    (ProcessMc X ev s).tree_ = s.tree_ ∧
    (ProcessMc X ev s).fMitGPTree.trigger_ = s.fMitGPTree.trigger_ ∧
    jetFields (ProcessMc X ev s).fMitGPTree = jetFields s.fMitGPTree := by
  unfold ProcessMc
  simp only
  split_ifs <;> exact ⟨rfl, rfl, rfl, rfl⟩

theorem preLoop_keeps (X : External) (ev : Event) (s : BoostedVTreeWriter) :
    (preLoop X ev s).fJetTriggerObjs = (GetJetTriggerObjs ev.hltFirst s).fJetTriggerObjs ∧
    (preLoop X ev s).tree_ = s.tree_ ∧
    (preLoop X ev s).fMitGPTree.trigger_ = (X.InitVariables s.fMitGPTree).trigger_ ∧
    jetFields (preLoop X ev s).fMitGPTree = jetFields (X.InitVariables s.fMitGPTree) := by
  have htree : (GetJetTriggerObjs ev.hltFirst s).tree_ = s.tree_ ∧
      (GetJetTriggerObjs ev.hltFirst s).fMitGPTree = s.fMitGPTree := by
    unfold GetJetTriggerObjs
    cases ev.hltFirst <;> exact ⟨rfl, rfl⟩
  unfold preLoop
  simp only
  split_ifs
  · have hk := ProcessMc_keeps X ev
      { GetJetTriggerObjs ev.hltFirst s with
        fMitGPTree := X.InitVariables (GetJetTriggerObjs ev.hltFirst s).fMitGPTree }
    refine ⟨hk.1, ?_, ?_, ?_⟩
    · exact hk.2.1.trans htree.1
    · exact hk.2.2.1.trans (by rw [htree.2])
    · exact hk.2.2.2.trans (by rw [htree.2])
  · exact ⟨rfl, htree.1, by rw [htree.2], by rw [htree.2]⟩

theorem triggerLoop_jetFields (objs : List TriggerObject) (t : MitGPTree) :
    jetFields (triggerLoop objs t) = jetFields t := by
  induction objs generalizing t with
  | nil => rfl
  | cons o rest ih =>
    simp only [triggerLoop]
    rw [ih]
    split_ifs <;> rfl

theorem testBit_one_eq (k : Nat) : Nat.testBit 1 k = decide (k = 0) := by
  have h := @Nat.testBit_two_pow 0 k
  simp only [pow_zero] at h
  rw [h]
  by_cases hk : k = 0
  · simp [hk]
  · simp [hk, Ne.symm hk]

theorem testBit_two_eq (k : Nat) : Nat.testBit 2 k = decide (k = 1) := by
  have h := @Nat.testBit_two_pow 1 k
  simp only [pow_one] at h
  rw [h]
  by_cases hk : k = 1
  · simp [hk]
  · simp [hk, Ne.symm hk]

theorem triggerLoop_testBit (objs : List TriggerObject) (t : MitGPTree) (k : Nat) :
    (triggerLoop objs t).trigger_.testBit k =
      (t.trigger_.testBit k ||
        (decide (k = 0) &&
          objs.any (fun o => Contains o.TrigName "MonoCentralPFJet80_PFMETnoMu")) ||
        (decide (k = 1) &&
          objs.any (fun o => Contains o.TrigName "HLT_MET120_HBHENoiseCleaned_v"))) := by
  induction objs generalizing t with
  | nil => simp [triggerLoop]
  | cons o rest ih =>
    simp only [triggerLoop]
    rw [ih]
    have h0 : (1 <<< 0 : Nat) = 1 := by decide
    have h1 : (1 <<< 1 : Nat) = 2 := by decide
    cases hA : Contains o.TrigName "MonoCentralPFJet80_PFMETnoMu" <;>
    cases hB : Contains o.TrigName "HLT_MET120_HBHENoiseCleaned_v" <;>
    simp only [if_true, if_false, Bool.false_eq_true, List.any_cons, Nat.testBit_or, h0, h1,
      testBit_one_eq, testBit_two_eq, hA, hB] <;>
    generalize t.trigger_.testBit k = x <;>
    generalize decide (k = 0) = d0 <;>
    generalize decide (k = 1) = d1 <;>
    generalize (rest.any fun o => Contains o.TrigName "MonoCentralPFJet80_PFMETnoMu") = rA <;>
    generalize (rest.any fun o => Contains o.TrigName "HLT_MET120_HBHENoiseCleaned_v") = rB <;>
    cases x <;> cases d0 <;> cases d1 <;> cases rA <;> cases rB <;> rfl

theorem candLoop_keeps (j : Nat) (cands : List PFCandidate) (s : BoostedVTreeWriter)
    (acc : List PseudoJet) :
    (candLoop j cands (s, acc)).1.fJetTriggerObjs = s.fJetTriggerObjs ∧
    (candLoop j cands (s, acc)).1.tree_ = s.tree_ ∧
    (candLoop j cands (s, acc)).1.fMitGPTree.trigger_ = s.fMitGPTree.trigger_ ∧
    jetFields (candLoop j cands (s, acc)).1.fMitGPTree = jetFields s.fMitGPTree := by
  induction cands generalizing j s acc with
  | nil => exact ⟨rfl, rfl, rfl, rfl⟩
  | cons c rest ih =>
    simp only [candLoop]
    split_ifs
    · obtain ⟨h1, h2, h3, h4⟩ := ih (j + 1) _ _
      exact ⟨h1.trans rfl, h2.trans rfl, h3.trans rfl, h4.trans rfl⟩
    · obtain ⟨h1, h2, h3, h4⟩ := ih (j + 1) _ _
      exact ⟨h1.trans rfl, h2.trans rfl, h3.trans rfl, h4.trans rfl⟩

theorem jetLoop_keeps (ev : Event) (s : BoostedVTreeWriter) :
    (jetLoop ev s).1.fJetTriggerObjs = s.fJetTriggerObjs ∧
    (jetLoop ev s).1.tree_ = s.tree_ ∧
    jetFields (jetLoop ev s).1.fMitGPTree = jetFields s.fMitGPTree := by
  unfold jetLoop
  split
  · exact ⟨rfl, rfl, rfl⟩
  · exact ⟨rfl, rfl, rfl⟩
  · rename_i jet rest hj
    simp only
    cases ev.hltSecond with
    | none =>
      obtain ⟨h1, h2, _, h4⟩ := candLoop_keeps 0 jet.cands
        { s with
          fTrigObjs := none
          stdout := s.stdout ++
            [" BoostedVTreeWriter::Process() - ERROR - TriggerObjectCol not found\n"] } []
      exact ⟨h1, h2, h4⟩
    | some objs =>
      obtain ⟨h1, h2, _, h4⟩ := candLoop_keeps 0 jet.cands
        { s with
          fTrigObjs := some objs
          fMitGPTree := triggerLoop objs s.fMitGPTree } []
      exact ⟨h1, h2, h4.trans (triggerLoop_jetFields objs s.fMitGPTree)⟩

theorem jetLoop_other (ev : Event) (s : BoostedVTreeWriter) (rest : List Jet)
    (h : ev.fJets = Jet.other :: rest) :
    jetLoop ev s =
      ({ s with stdout := s.stdout ++
          [" BoostedVTreeWriter::Process() - ERROR - jets provided are not PFJets."] }, []) := by
  simp [jetLoop, h]

theorem jetLoop_trigger_none (ev : Event) (s : BoostedVTreeWriter) (jet : PFJet)
    (rest : List Jet) (h : ev.fJets = Jet.pfJet jet :: rest) (hn : ev.hltSecond = none) :
    (jetLoop ev s).1.fMitGPTree.trigger_ = s.fMitGPTree.trigger_ := by
  simp only [jetLoop, h, hn]
  exact (candLoop_keeps 0 jet.cands _ []).2.2.1

theorem jetLoop_trigger_some (ev : Event) (s : BoostedVTreeWriter) (jet : PFJet)
    (rest : List Jet) (objs : List TriggerObject) (h : ev.fJets = Jet.pfJet jet :: rest)
    (hs : ev.hltSecond = some objs) :
    (jetLoop ev s).1.fMitGPTree.trigger_ = (triggerLoop objs s.fMitGPTree).trigger_ := by
  simp only [jetLoop, h, hs]
  exact (candLoop_keeps 0 jet.cands _ []).2.2.1

theorem afterLoop_trigger (X : External) (ev : Event) (s : BoostedVTreeWriter)
    (lFjParts : List PseudoJet) :
    (afterLoop X ev s lFjParts).fMitGPTree.trigger_ = s.fMitGPTree.trigger_ := by
  unfold afterLoop
  simp only
  split_ifs <;> rfl

theorem afterLoop_skip (X : External) (ev : Event) (s : BoostedVTreeWriter)
    (lFjParts : List PseudoJet)
    (h : (lOutJets X lFjParts).length = 0 ∨ X.pt (lJet1 X (lOutJets X lFjParts)) < 100) :
    (afterLoop X ev s lFjParts).tree_ = s.tree_ ∧
    jetFields (afterLoop X ev s lFjParts).fMitGPTree = jetFields s.fMitGPTree := by
  unfold afterLoop
  simp only
  split_ifs with h0 hpt h2
  · exact ⟨rfl, rfl⟩
  · exact ⟨rfl, rfl⟩
  · rcases h with h | h
    · exact absurd h h0
    · exact absurd h hpt
  · rcases h with h | h
    · exact absurd h h0
    · exact absurd h hpt

theorem afterLoop_emit (X : External) (ev : Event) (s : BoostedVTreeWriter)
    (lFjParts : List PseudoJet)
    (h0 : (lOutJets X lFjParts).length ≠ 0)
    (hpt : ¬ X.pt (lJet1 X (lOutJets X lFjParts)) < 100) :
    (afterLoop X ev s lFjParts).tree_ = s.tree_ ++ [(afterLoop X ev s lFjParts).fMitGPTree] ∧
    (afterLoop X ev s lFjParts).fMitGPTree.jet1MinTrigDr_ =
      minTriggerLoop X
        { px := (lJet1 X (lOutJets X lFjParts)).px, py := (lJet1 X (lOutJets X lFjParts)).py,
          pz := (lJet1 X (lOutJets X lFjParts)).pz, e := (lJet1 X (lOutJets X lFjParts)).E }
        s.fJetTriggerObjs 999 ∧
    ((lOutJets X lFjParts).length > 1 →
      (afterLoop X ev s lFjParts).fMitGPTree.jet2MinTrigDr_ =
        minTriggerLoop X
          { px := (lJet2 X (lOutJets X lFjParts)).px, py := (lJet2 X (lOutJets X lFjParts)).py,
            pz := (lJet2 X (lOutJets X lFjParts)).pz, e := (lJet2 X (lOutJets X lFjParts)).E }
          s.fJetTriggerObjs 999) ∧
    (¬ (lOutJets X lFjParts).length > 1 →
      (afterLoop X ev s lFjParts).fMitGPTree.jet2MinTrigDr_ = s.fMitGPTree.jet2MinTrigDr_) := by
  unfold afterLoop
  simp only [if_neg h0, if_neg hpt]
  split_ifs with h2
  · exact ⟨rfl, rfl, fun _ => rfl, fun h => absurd h2 h⟩
  · exact ⟨rfl, rfl, fun h => absurd h h2, fun _ => rfl⟩

theorem lJet1_cons (X : External) (j : PseudoJet) (tl : List PseudoJet) :
    lJet1 X (j :: tl) = X.fPruner j := by
  simp [lJet1]

theorem Process_skip (X : External) (ev : Event) (s : BoostedVTreeWriter)
    (h : (lOutJets X (Process_lFjParts X ev s)).length = 0 ∨
      X.pt (lJet1 X (lOutJets X (Process_lFjParts X ev s))) < 100) :
    (Process X ev s).tree_ = s.tree_ ∧
    jetFields (Process X ev s).fMitGPTree = jetFields (X.InitVariables s.fMitGPTree) := by
  obtain ⟨ht, hf⟩ := afterLoop_skip X ev (jetLoop ev (preLoop X ev s)).1
    (Process_lFjParts X ev s) h
  obtain ⟨_, ht2, hf2⟩ := jetLoop_keeps ev (preLoop X ev s)
  obtain ⟨_, ht3, _, hf3⟩ := preLoop_keeps X ev s
  exact ⟨ht.trans (ht2.trans ht3), hf.trans (hf2.trans hf3)⟩

/-! ## Claims on `Process` -/

/-- C1: record emission of `Process`. No record is emitted (the tree is not
filled and the jet1/jet2 branch variables stay as `InitVariables` left them)
when the clustering yields no jet, or when the leading jet, after pruning, has
`pt` below 100; in every other case (a leading jet whose pruned `pt` is at
least 100, the value 100 included) exactly one record, the final branch
variables, is appended to the tree. -/
theorem Process_record_emission (X : External) (ev : Event) (s : BoostedVTreeWriter) :
    (lOutJets X (Process_lFjParts X ev s) = [] →
      (Process X ev s).tree_ = s.tree_ ∧
      jetFields (Process X ev s).fMitGPTree = jetFields (X.InitVariables s.fMitGPTree)) ∧
    (∀ (j : PseudoJet) (tl : List PseudoJet),
      lOutJets X (Process_lFjParts X ev s) = j :: tl → X.pt (X.fPruner j) < 100 →
      (Process X ev s).tree_ = s.tree_ ∧
      jetFields (Process X ev s).fMitGPTree = jetFields (X.InitVariables s.fMitGPTree)) ∧
    (∀ (j : PseudoJet) (tl : List PseudoJet),
      lOutJets X (Process_lFjParts X ev s) = j :: tl → 100 ≤ X.pt (X.fPruner j) →
      (Process X ev s).tree_ = s.tree_ ++ [(Process X ev s).fMitGPTree]) := by
  refine ⟨?_, ?_, ?_⟩
  · intro h
    exact Process_skip X ev s (Or.inl (by rw [h]; rfl))
  · intro j tl h hpt
    exact Process_skip X ev s (Or.inr (by rw [h, lJet1_cons]; exact hpt))
  · intro j tl h hpt
    have h0 : (lOutJets X (Process_lFjParts X ev s)).length ≠ 0 := by
      rw [h]
      simp
    have hp : ¬ X.pt (lJet1 X (lOutJets X (Process_lFjParts X ev s))) < 100 := by
      rw [h, lJet1_cons]
      exact not_lt.mpr hpt
    have he := (afterLoop_emit X ev (jetLoop ev (preLoop X ev s)).1
      (Process_lFjParts X ev s) h0 hp).1
    obtain ⟨_, ht2, _⟩ := jetLoop_keeps ev (preLoop X ev s)
    obtain ⟨_, ht3, _, _⟩ := preLoop_keeps X ev s
    unfold Process
    rw [he, ht2, ht3]

/-- Witness of C1 at the sample data: no jet at all, a leading jet of `pt = 80`,
a leading jet of `pt = 100` exactly and a leading jet of `pt = 150`. -/
theorem Process_record_emission_witness :
    (Process sampleExternal emptyEvent freshWriter).tree_ = [] ∧
    (Process sampleExternal softEvent freshWriter).tree_ = [] ∧
    (Process sampleExternal thresholdEvent freshWriter).tree_ =
      [(Process sampleExternal thresholdEvent freshWriter).fMitGPTree] ∧
    (Process sampleExternal hardEvent freshWriter).tree_ =
      [(Process sampleExternal hardEvent freshWriter).fMitGPTree] ∧
    (Process sampleExternal thresholdEvent freshWriter).fMitGPTree.jet1Pt_ = 100 :=
  ⟨((Process_record_emission sampleExternal emptyEvent freshWriter).1 (by decide)).1,
   ((Process_record_emission sampleExternal softEvent freshWriter).2.1
      { px := 80, py := 0, pz := 0, E := 80, user_index := 0 }
      [{ px := 30, py := 0, pz := 0, E := 30, user_index := 1 }] (by decide) (by decide)).1,
   (Process_record_emission sampleExternal thresholdEvent freshWriter).2.2
      { px := 100, py := 0, pz := 0, E := 100, user_index := 1 }
      [{ px := 30, py := 0, pz := 0, E := 30, user_index := 0 }] (by decide) (by decide),
   (Process_record_emission sampleExternal hardEvent freshWriter).2.2
      { px := 150, py := 0, pz := 0, E := 150, user_index := 0 }
      [{ px := 30, py := 0, pz := 0, E := 30, user_index := 1 }] (by decide) (by decide),
   by decide⟩

/-- C6: when the first entry of the jet collection is not a PFJet, the jet loop
stops at once (only the diagnostic is printed) with no particle collected, and
no record is emitted for the event. The clustering is outside the module; what
is assumed of it is that clustering an empty particle list gives no jet that
passes the cut after pruning (spec 4.2: zero input particles yield an empty jet
list). -/
theorem Process_first_jet_not_PFJet (X : External) (ev : Event) (s : BoostedVTreeWriter)
    (rest : List Jet) (h : ev.fJets = Jet.other :: rest)
    (hEmpty : ∀ j ∈ X.inclusive_jets [], X.pt (X.fPruner j) < 100) :
    jetLoop ev (preLoop X ev s) =
      ({ preLoop X ev s with stdout := (preLoop X ev s).stdout ++
          [" BoostedVTreeWriter::Process() - ERROR - jets provided are not PFJets."] }, []) ∧
    Process_lFjParts X ev s = [] ∧
    (Process X ev s).tree_ = s.tree_ ∧
    jetFields (Process X ev s).fMitGPTree = jetFields (X.InitVariables s.fMitGPTree) := by
  have hloop := jetLoop_other ev (preLoop X ev s) rest h
  have hparts : Process_lFjParts X ev s = [] := by
    unfold Process_lFjParts
    rw [hloop]
  refine ⟨hloop, hparts, ?_⟩
  apply Process_skip
  rw [hparts]
  cases hout : lOutJets X [] with
  | nil => exact Or.inl rfl
  | cons j tl =>
    refine Or.inr ?_
    rw [lJet1_cons]
    apply hEmpty
    have hmem : j ∈ lOutJets X [] := by
      rw [hout]
      exact List.mem_cons_self _ _
    exact (List.perm_insertionSort (fun a b => X.pt b ≤ X.pt a) (X.inclusive_jets [])).mem_iff.mp
      hmem

/-- Witness of C6: the sample event with a foreign object ahead of its jets. -/
theorem Process_first_jet_not_PFJet_witness :
    badEvent.fJets = Jet.other :: [Jet.pfJet hardJet] ∧
    (∀ j ∈ sampleExternal.inclusive_jets [], sampleExternal.pt (sampleExternal.fPruner j) < 100) ∧
    Process_lFjParts sampleExternal badEvent freshWriter = [] ∧
    (Process sampleExternal badEvent freshWriter).tree_ = freshWriter.tree_ :=
  ⟨rfl, by simp [sampleExternal],
   (Process_first_jet_not_PFJet sampleExternal badEvent freshWriter [Jet.pfJet hardJet] rfl
      (by simp [sampleExternal])).2.1,
   (Process_first_jet_not_PFJet sampleExternal badEvent freshWriter [Jet.pfJet hardJet] rfl
      (by simp [sampleExternal])).2.2.1⟩

theorem Process_trigger_eq_jetLoop (X : External) (ev : Event) (s : BoostedVTreeWriter) :
    (Process X ev s).fMitGPTree.trigger_ =
      (jetLoop ev (preLoop X ev s)).1.fMitGPTree.trigger_ := by
  unfold Process
  exact afterLoop_trigger X ev _ _

/-- C8: the trigger bitmask of `Process`, for an event whose jet collection
starts with a PFJet. With `m` the mask `InitVariables` leaves: when the trigger
collection is available, bit 0 of the result is set iff bit 0 of `m` is set or
some trigger name contains "MonoCentralPFJet80_PFMETnoMu", bit 1 is set iff
bit 1 of `m` is set or some trigger name contains
"HLT_MET120_HBHENoiseCleaned_v", and every other bit is the bit of `m`; when
the collection is unavailable the mask is `m`. -/
theorem Process_trigger_bitmask (X : External) (ev : Event) (s : BoostedVTreeWriter)
    (jet : PFJet) (rest : List Jet) (h : ev.fJets = Jet.pfJet jet :: rest) :
    (∀ objs : List TriggerObject, ev.hltSecond = some objs →
      ((Process X ev s).fMitGPTree.trigger_.testBit 0 = true ↔
        ((X.InitVariables s.fMitGPTree).trigger_.testBit 0 = true ∨
          ∃ o ∈ objs, Contains o.TrigName "MonoCentralPFJet80_PFMETnoMu" = true)) ∧
      ((Process X ev s).fMitGPTree.trigger_.testBit 1 = true ↔
        ((X.InitVariables s.fMitGPTree).trigger_.testBit 1 = true ∨
          ∃ o ∈ objs, Contains o.TrigName "HLT_MET120_HBHENoiseCleaned_v" = true)) ∧
      (∀ k : Nat, 2 ≤ k →
        (Process X ev s).fMitGPTree.trigger_.testBit k =
          (X.InitVariables s.fMitGPTree).trigger_.testBit k)) ∧
    (ev.hltSecond = none →
      (Process X ev s).fMitGPTree.trigger_ = (X.InitVariables s.fMitGPTree).trigger_) := by
  have hpre := (preLoop_keeps X ev s).2.2.1
  refine ⟨?_, ?_⟩
  · intro objs hs
    have hbit : ∀ k : Nat, (Process X ev s).fMitGPTree.trigger_.testBit k =
        ((X.InitVariables s.fMitGPTree).trigger_.testBit k ||
          (decide (k = 0) &&
            objs.any (fun o => Contains o.TrigName "MonoCentralPFJet80_PFMETnoMu")) ||
          (decide (k = 1) &&
            objs.any (fun o => Contains o.TrigName "HLT_MET120_HBHENoiseCleaned_v"))) := by
      intro k
      rw [Process_trigger_eq_jetLoop, jetLoop_trigger_some ev _ jet rest objs h hs,
        triggerLoop_testBit, hpre]
    refine ⟨?_, ?_, ?_⟩
    · rw [hbit 0]
      simp
    · rw [hbit 1]
      simp
    · intro k hk
      rw [hbit k]
      have h0 : k ≠ 0 := by omega
      have h1 : k ≠ 1 := by omega
      simp [h0, h1]
  · intro hn
    rw [Process_trigger_eq_jetLoop, jetLoop_trigger_none ev _ jet rest h hn, hpre]

/-- Witness of C8: the sample event carries a MET and a mono-jet trigger object,
`InitVariables` leaves the mask 0, and the resulting mask is 3. -/
theorem Process_trigger_bitmask_witness :
    hardEvent.fJets = Jet.pfJet hardJet :: [Jet.pfJet softJet] ∧
    hardEvent.hltSecond = some [metObj, monoJetObj] ∧
    (Process sampleExternal hardEvent freshWriter).fMitGPTree.trigger_ = 3 ∧
    ((Process sampleExternal hardEvent freshWriter).fMitGPTree.trigger_.testBit 0 = true ↔
      ((sampleExternal.InitVariables freshWriter.fMitGPTree).trigger_.testBit 0 = true ∨
        ∃ o ∈ [metObj, monoJetObj],
          Contains o.TrigName "MonoCentralPFJet80_PFMETnoMu" = true)) :=
  ⟨rfl, rfl, by decide,
   ((Process_trigger_bitmask sampleExternal hardEvent freshWriter hardJet [Jet.pfJet softJet]
      rfl).1 [metObj, monoJetObj] rfl).1⟩

end BoostedV
